import Mathlib

/-
Verification of the command-schema model and message-lifecycle layer:
shallow embedding of `src/dis_interact/model.py` and
`src/interactions/api/models/message.py`, with theorems checking the
specification's claims against the embedded code.
-/

namespace DisInteract

/-- Error kinds a `dis_interact/model.py` call can surface: the builtin Python
exceptions the code can hit, plus `InteractionException` with its
`DefaultErrorEnum` code (the enum module is not under src, so the codes are
kept symbolic; `incorrectCommandData` is the spec's `SchemaError`,
`incorrectFormat` its `FormatError`). -/
inductive ErrCode where
  | incorrectCommandData
  | incorrectFormat
deriving DecidableEq

inductive PyErr where
  | valueError
  | typeError
  | attributeError
  | keyError
  | interaction (code : ErrCode)
deriving DecidableEq

/-- Value of a choice, `Union[str, int, bool]` in the source. -/
inductive ChoiceVal where
  | str (s : String)
  | int (i : Int)
  | bool (b : Bool)
deriving DecidableEq

/-- Keyword payload for one entry of a `choices` list. -/
structure ChoiceDecl where
  name : String
  value : ChoiceVal
deriving DecidableEq

/-- Result object of `BaseChoice.__init__` (model.py lines 305-320). -/
structure BaseChoice where
  name : String
  value : ChoiceVal
deriving DecidableEq

/-- BaseChoice(**choice): the constructor just stores both fields. -/
def BaseChoice.ofDecl (c : ChoiceDecl) : BaseChoice := ⟨c.name, c.value⟩

/-- Keyword payload for one option declaration passed to `BaseOption`:
`name`, `description`, `required`, `options`, `choices` and the `type` kwarg
read via `kwargs.get("type")` (absent ↦ `none`). -/
inductive OptionDecl : Type where
  | mk (name description : String) (required : Bool)
       (options : List OptionDecl) (choices : List ChoiceDecl)
       (type? : Option Int)

/-- Result object of `BaseOption.__init__` (the `type` kwarg is read but never
stored: it is not in `__slots__`). -/
inductive BaseOption : Type where
  | mk (name description : String) (required : Bool)
       (options : List BaseOption) (choices : List BaseChoice)

/-- Python tuple unpacking `a, b = xs`: succeeds only when `xs` has exactly
two elements, otherwise raises ValueError. -/
def unpack2 (xs : List α) : Except PyErr (α × α) :=
  match xs with
  | [a, b] => .ok (a, b)
  | _ => .error .valueError

mutual

/-- BaseOption.__init__ (model.py lines 242-286).  Line 271 is
`self.options, self.choices = []`: unpacking the empty list into two targets,
which raises ValueError before any of the validation below it can run.  The
remaining statements (lines 272-286) are embedded in the `.ok` continuation
exactly as written: the `type` check, then for `_type in [1, 2]` the test
`options is not []` — an identity comparison against a fresh list literal,
which is always true, so the `elif _type == 2` branch raising
"Options are required for subcommands/subcommand groups" is unreachable and
every child in `options` is parsed with a recursive `BaseOption(**option)`
call — and finally the `choices` parsing. -/
def BaseOption.init (d : OptionDecl) : Except PyErr BaseOption :=
  (unpack2 ([] : List Unit)).bind fun _ =>
    match d with
    | .mk name description required options choices type? =>
      match type? with
      | none =>
        -- raise InteractionException(errorcode.INCORRECT_COMMAND_DATA,
        --   message="Type is a required kwarg for options.")
        .error (.interaction .incorrectCommandData)
      | some t =>
        match (if t == 1 || t == 2 then BaseOption.initList options else .ok []) with
        | .error e => .error e
        | .ok opts =>
          .ok (.mk name description required opts
                (if choices.isEmpty then [] else choices.map BaseChoice.ofDecl))

/-- The list comprehension `[self.options.append(BaseOption(**option)) for
option in options]`: each child is constructed in order; the first
exception propagates. -/
def BaseOption.initList (l : List OptionDecl) : Except PyErr (List BaseOption) :=
  match l with
  | [] => .ok []
  | o :: rest =>
    match BaseOption.init o with
    | .error e => .error e
    | .ok b =>
      match BaseOption.initList rest with
      | .error e => .error e
      | .ok bs => .ok (b :: bs)

end

/-- Permission object of `BasePermission.__init__` (model.py lines 341-362);
`_type` is an IntEnum value, compared as an integer. -/
structure BasePermission where
  id : Int
  _type : Int
  state : Bool
deriving DecidableEq

/-- BasePermission.__eq__ (model.py lines 364-375), exactly as written: the
middle conjunct compares `self._type` with `other.id` (sic). -/
def BasePermission.eq (a b : BasePermission) : Bool :=
  a.id == b.id && a._type == b.id && a.state == b.state

/-- Dictionary argument of `Command.__init__`.  Only the presence of the
`"func"` key matters: `command["func"]` is evaluated first (a missing key
raises KeyError), and the call it feeds, `super().__init__(command["func"])`,
always raises TypeError because `Command` derives directly from `object` and
`object.__init__` rejects the extra positional argument.  The other keys
(`description`, `base_desc`, `sub_group_desc`, `guild_ids`, `api_options`,
`connector`, `api_permissions`, `default_permission`, `has_subcommands`) are
read only on lines 116-130, which are never reached. -/
structure CommandDict where
  func : Option Unit
deriving DecidableEq

/-- The object `Command.__init__` would produce (never reached; lines 112-114
would additionally raise TypeError at `isinstance(base, None)` — `None` is
not a type — and line 113 assigns `self.sub`, a name absent from
`__slots__`). -/
structure CommandObj where
  name : String
  base : Option String
  sub : Option String
  group : Option String
deriving DecidableEq

/-- Command.__init__ (model.py lines 84-133). -/
def Command.init (name : String) (command : CommandDict) (_type : Int)
    (sub base group : Option String) : Except PyErr CommandObj :=
  match command.func with
  | none => .error .keyError
  | some _ => .error .typeError

/-- Value stored under `_response["allowed_mentions"]`: either the empty dict
literal or a serialized allowed-mentions mapping. -/
inductive AMEntry where
  | emptyDict
  | dict (d : Nat)
deriving DecidableEq

/-- Client-wide allowed-mentions policy object (`discord.AllowedMentions`);
only its serialized form matters here. -/
structure AM where
  dict : Nat
deriving DecidableEq

/-- Serialization `allowed_mentions.to_dict()`. -/
def AM.toDict (a : AM) : AMEntry := .dict a.dict

/-- Embed object; `embed.to_dict()` is its serialized form. -/
structure Embed where
  dict : Nat
deriving DecidableEq

def Embed.toDict (e : Embed) : Nat := e.dict

/-- Keyword fields of `Message._slash_edit(**fields)`.  The first six are read
with `fields["…"]` inside the `try` block (outer `Option` = key present,
inner value may be Python `None`); `allowed_mentions` and `delete_after` are
read with `fields.get(…)`, where an absent key and `None` coincide. -/
structure SlashFields where
  content : Option (Option String)
  components : Option (Option (List Nat))
  embed : Option (Option Embed)
  embeds : Option (Option (List Embed))
  file : Option (Option Nat)
  files : Option (Option (List Nat))
  allowed_mentions : Option AM
  delete_after : Option Nat
deriving DecidableEq

/-- The `_response` dict built by `_slash_edit` (it is assembled and then
dropped: the method sends nothing). -/
structure SlashResponse where
  components : List Nat
  embeds : List Nat
  allowed_mentions : AMEntry
deriving DecidableEq

/-- Observable effects of one `_slash_edit` call: the `_response` dict it
built (absent when the `except KeyError: pass` path was taken), the delay of
the `self.delete(delay=delete_after)` call if one was awaited, and the files
closed at the end. -/
structure SlashRun where
  response : Option SlashResponse
  deleteDelay : Option Nat
  closedFiles : List Nat
deriving DecidableEq

/-- Message state used by `_slash_edit` and `delete` (model.py Message class):
the interaction token, the message id, and `self._state.allowed_mentions`,
the client-wide default policy. -/
structure Message where
  token : Nat
  id : Nat
  stateAllowedMentions : Option AM
deriving DecidableEq

/-- Message._slash_edit (model.py lines 472-523), statement by statement.
The `try` block reads six keys with `fields[…]`; if any is absent the
KeyError is swallowed by `except KeyError: pass` and the method returns None
having done nothing.  Otherwise the `else` block runs:
`content = str(content) if content is None else None` (a dead local),
`_response["components"] = [] if components is None else components`,
the comprehension `[embed.to_dict() for embed in embeds]` (TypeError when
`embeds` is None), then
`_response["embeds"] = [] if embed == None else ([embed.to_dict()] if embeds
is None else _response["embeds"])` — the middle alternative is dead because a
None `embeds` already failed, `files = [file] if file else files`, the
`isinstance(embeds, list)` check (never true here: `embeds` is a list), the
10-embed limit, the file/files conflict check, the allowed-mentions block
(with its inverted conditions: both branches for an omitted caller value call
a method on None and raise AttributeError, and a supplied value with a
configured client default stores the empty dict), the `delete_after` call,
and the closing of `files`. -/
def Message.slashEdit (m : Message) (fields : SlashFields) :
    Except PyErr SlashRun :=
  match fields.content, fields.components, fields.embed, fields.embeds,
        fields.file, fields.files with
  | some _content, some components, some embed, some embeds, some file, some files =>
    match embeds with
    | none => .error .typeError
    | some l =>
      let e1 : List Nat := l.map Embed.toDict
      let respEmbeds : List Nat :=
        match embed with
        | none => []
        | some _ => e1
      let files2 : Option (List Nat) :=
        match file with
        | some f => some [f]
        | none => files
      if l.length > 10 then
        -- raise InteractionException(errorcode.INCORRECT_FORMAT,
        --   message="Do not provide more than 10 embeds.")
        .error (.interaction .incorrectFormat)
      else if files2.isSome && file.isSome then
        -- raise InteractionException(errorcode.INCORRECT_FORMAT): file and
        -- files kwargs must not be used at the same time
        .error (.interaction .incorrectFormat)
      else
        match fields.allowed_mentions, m.stateAllowedMentions with
        | none, none => .error .attributeError      -- None.merge(allowed_mentions)
        | none, some _ => .error .attributeError    -- allowed_mentions.to_dict() on None
        | some _, none => .error .attributeError    -- self._state.allowed_mentions.to_dict() on None
        | some _, some _ =>
          -- _response["allowed_mentions"] is set to the empty dict
          let deleteDelay : Option Nat :=
            match fields.delete_after with
            | some d => if d = 0 then none else some d
            | none => none
          let closedFiles : List Nat :=
            match files2 with
            | some (f :: fs) => f :: fs
            | _ => []
          .ok { response := some { components := components.getD [],
                                   embeds := respEmbeds,
                                   allowed_mentions := .emptyDict },
                deleteDelay := deleteDelay,
                closedFiles := closedFiles }
  | _, _, _, _, _, _ =>
    .ok { response := none, deleteDelay := none, closedFiles := [] }

inductive TransportErr where
  | forbidden
  | otherError
deriving DecidableEq

/-- Modelled from the spec: outcomes of the two transport calls `delete`
relies on.  The channel-scoped delete (`super().delete`, from the `override`
module) and the interaction-token delete (`self._http.delete`, from the
`http` module) are repository code not under src; spec section 6 specifies
them as `sendChannelDelete -> success | Forbidden | OtherError` and
`sendInteractionDelete(interactionToken, messageId) -> success | Forbidden |
OtherError`; a successful token delete carries the value the caller
receives. -/
structure DeleteEnv where
  channelDelete : Except TransportErr Unit
  tokenDelete : Except TransportErr Nat

/-- Background coroutine `wrap()` scheduled by `delete` when a delay is
given: it closes over the delay, the interaction token and the message id. -/
structure BgTask where
  delay : Nat
  token : Nat
  msgId : Nat
deriving DecidableEq

inductive BgAction where
  | sleep (seconds : Nat)
  | tokenDelete (token : Nat) (msgId : Nat)
deriving DecidableEq

/-- Body of `wrap()`: `await sleep(delay)` then
`await self._http.delete(token, id)`, inside `with suppress(Forbidden)`. -/
def BgTask.actions (t : BgTask) : List BgAction :=
  [.sleep t.delay, .tokenDelete t.token t.msgId]

/-- Error escaping the `with suppress(Forbidden)` block of `wrap()` when the
deferred token delete finishes with the given outcome: Forbidden is
suppressed, any other error escapes (to the event loop — there is no caller
waiting). -/
def wrapEscapes (outcome : Except TransportErr Nat) : Option TransportErr :=
  match outcome with
  | .ok _ => none
  | .error .forbidden => none
  | .error .otherError => some .otherError

/-- Observable result of one `delete` call: the token-scoped delete calls
awaited synchronously (as (token, message id) pairs), the caller-visible
outcome (`.error e` when an exception propagates, `.ok (some v)` when the
fallback result `v` is returned, `.ok none` for a plain None return), and
the background tasks handed to `self._state.loop.create_task`. -/
structure DeleteRun where
  fallbackCalls : List (Nat × Nat)
  outcome : Except TransportErr (Option Nat)
  scheduled : List BgTask

/-- Message.delete (model.py lines 525-550): try the channel-scoped delete;
on Forbidden, either fall back immediately — `if not delay:` is taken for a
missing delay and for a delay of 0, both falsy — returning the token-scoped
delete result, or schedule `wrap()` on the event loop and return None. -/
def Message.delete (m : Message) (env : DeleteEnv) (delay : Option Nat) :
    DeleteRun :=
  match env.channelDelete with
  | .ok _ => { fallbackCalls := [], outcome := .ok none, scheduled := [] }
  | .error .otherError =>
    { fallbackCalls := [], outcome := .error .otherError, scheduled := [] }
  | .error .forbidden =>
    if delay.getD 0 = 0 then
      { fallbackCalls := [(m.token, m.id)],
        outcome := env.tokenDelete.map some,
        scheduled := [] }
    else
      { fallbackCalls := [], outcome := .ok none,
        scheduled := [{ delay := delay.getD 0, token := m.token, msgId := m.id }] }

end DisInteract

namespace Interactions

/-- Embed object of `interactions/api/models/message.py`; `json` stands for
its `_json` serialized form. -/
structure Embed where
  json : Nat
deriving DecidableEq

/-- Caller argument that defaults to the `MISSING` sentinel: either omitted
or given (the given value may itself be Python `None`, hence the `Option` at
the use sites). -/
inductive Arg (α : Type) where
  | missing
  | given (val : α)
deriving DecidableEq

/-- The `files` argument: MISSING, None, a single File, or a list of Files
(files abstracted by an identifier). -/
inductive FilesArg where
  | missing
  | noneV
  | single (f : Nat)
  | list (fs : List Nat)
deriving DecidableEq

/-- The `embeds` argument: MISSING, None, a single Embed, or a list. -/
inductive EmbedsArg where
  | missing
  | noneV
  | single (e : Embed)
  | list (es : List Embed)
deriving DecidableEq

/-- The `allowed_mentions` argument: MISSING, None, an AllowedMentions object
(`am`, abstracted by its `_json`), or a raw dict. -/
inductive AMArg where
  | missing
  | noneV
  | am (a : Nat)
  | dict (d : Nat)
deriving DecidableEq

/-- The `message_reference` argument: MISSING, None, or a MessageReference
(abstracted by its `_json`). -/
inductive MRArg where
  | missing
  | noneV
  | ref (r : Nat)
deriving DecidableEq

/-- The `attachments` argument: MISSING, None, or a list of Attachments
(abstracted by their `_json`). -/
inductive AttachArg where
  | missing
  | noneV
  | list (xs : List Nat)
deriving DecidableEq

/-- The `components` argument: MISSING, None, a single component, or a
list. -/
inductive ComponentsArg where
  | missing
  | noneV
  | single (c : Nat)
  | list (cs : List Nat)
deriving DecidableEq

/-- Entry of the payload's `attachments` list: a stored/supplied
Attachment's `_json`, or `File._json_payload(idx)` for an upload. -/
inductive AttachEntry where
  | attach (a : Nat)
  | filePayload (idx : Nat) (f : Nat)
deriving DecidableEq

/-- Payload `allowed_mentions` entry. -/
inductive AMEntry where
  | emptyDict
  | noneVal
  | amJson (a : Nat)
  | rawDict (d : Nat)
deriving DecidableEq

/-- Payload `message_reference` entry. -/
inductive MREntry where
  | emptyDict
  | refJson (r : Nat)
deriving DecidableEq

/-- Payload `components` entry; `_build_components` lives in
`client/models/component.py`, which is not under src, so its results are
kept symbolic, tagged by what was passed to it. -/
inductive ComponentsPayload where
  | empty
  | builtStored (stored : Option (List Nat))
  | builtList (cs : List Nat)
  | builtSingle (c : Nat)
deriving DecidableEq

/-- LibraryException with its numeric code and optional message. -/
structure LibraryException where
  code : Nat
  message : Option String
deriving DecidableEq

inductive EditErr where
  | lib (e : LibraryException)
  | typeError
  | attributeError
deriving DecidableEq

/-- Message state read by `Message.edit`: truthiness of `self._client`, ids,
and the stored fields that back omitted arguments.  `attachments`, `embeds`,
`components` and `flags` all default to None on the attrs class; stored
attachments and embeds are abstracted by their `_json` forms. -/
structure Message where
  hasClient : Bool
  id : Nat
  channel_id : Nat
  content : Option String
  attachments : Option (List Nat)
  embeds : Option (List Embed)
  components : Option (List Nat)
  flags : Option Nat
deriving DecidableEq

/-- The keyword arguments of `Message.edit`, each defaulting to MISSING. -/
structure EditArgs where
  content : Arg (Option String)
  tts : Arg (Option Bool)
  files : FilesArg
  embeds : EmbedsArg
  suppress_embeds : Arg (Option Bool)
  allowed_mentions : AMArg
  message_reference : MRArg
  attachments : AttachArg
  components : ComponentsArg
deriving DecidableEq

/-- An `edit()` call with every argument left at its MISSING default. -/
def EditArgs.allMissing : EditArgs :=
  ⟨.missing, .missing, .missing, .missing, .missing, .missing, .missing,
   .missing, .missing⟩

/-- An `edit()` call whose only explicit argument is `embeds`. -/
def EditArgs.withEmbeds (e : EmbedsArg) : EditArgs :=
  { EditArgs.allMissing with embeds := e }

/-- MessageFlags.SUPPRESS_EMBEDS (the `flags` module is not under src; this
is the platform's published value of the flag, 1 <<< 2). -/
def SUPPRESS_EMBEDS : Nat := 4

/-- Lines 922-926: `_flags = self.flags`, then or-in or and-out
SUPPRESS_EMBEDS when `suppress_embeds` was supplied.  When `self.flags` is
None (its default) and `suppress_embeds` was supplied, the bitwise operation
on None raises TypeError; `f - (f &&& 4)` is `f & ~4`. -/
def suppressFlags (flags : Option Nat) : Arg (Option Bool) → Except EditErr (Option Nat)
  | .missing => .ok flags
  | .given v =>
    match flags with
    | none => .error .typeError
    | some f =>
      if v = some true then .ok (some (f ||| SUPPRESS_EMBEDS))
      else .ok (some (f - (f &&& SUPPRESS_EMBEDS)))

/-- Lines 933-938: MISSING falls back to the stored attachments (iterating a
None store raises TypeError), a falsy argument (None or the empty list)
clears, otherwise the supplied attachments are serialized. -/
def attachmentsPayload (stored : Option (List Nat)) :
    AttachArg → Except EditErr (List AttachEntry)
  | .missing =>
    match stored with
    | none => .error .typeError
    | some l => .ok (l.map .attach)
  | .noneV => .ok []
  | .list [] => .ok []
  | .list l => .ok (l.map .attach)

/-- Lines 940-946: a falsy or MISSING `files` gives no uploads; a list is
enumerated into `_json_payload(idx)` forms; a single File becomes a
one-element upload and the variable `files` is rebound to `[files]` (the
second component is the `files` value later passed to the transport). -/
def filesPayload : FilesArg → List AttachEntry × FilesArg
  | .missing => ([], .missing)
  | .noneV => ([], .noneV)
  | .list [] => ([], .list [])
  | .list fs => ((fs.enum).map (fun p => .filePayload p.1 p.2), .list fs)
  | .single f => ([.filePayload 0 f], .list [f])

/-- Lines 950-956: a MISSING `embeds` argument is replaced by the stored
`self.embeds`; then a falsy value (None or the empty list) gives the empty
payload list, a list maps `_json` over its members, and a single Embed gives
a one-element list. -/
def embedsPayload (stored : Option (List Embed)) (arg : EmbedsArg) : List Nat :=
  let e : EmbedsArg :=
    match arg with
    | .missing =>
      match stored with
      | none => .noneV
      | some l => .list l
    | x => x
  match e with
  | .noneV => []
  | .missing => []
  | .single emb => [emb.json]
  | .list l => if l.isEmpty then [] else l.map Embed.json

/-- Lines 958-964: MISSING gives the empty dict, an AllowedMentions object
its `_json`, anything else (a raw dict, or a caller-passed None) is stored
verbatim. -/
def allowedMentionsPayload : AMArg → AMEntry
  | .missing => .emptyDict
  | .am a => .amJson a
  | .dict d => .rawDict d
  | .noneV => .noneVal

/-- Line 965: MISSING gives the empty dict, otherwise
`message_reference._json` is read — on a caller-passed None that attribute
access raises AttributeError. -/
def messageReferencePayload : MRArg → Except EditErr MREntry
  | .missing => .ok .emptyDict
  | .ref r => .ok (.refJson r)
  | .noneV => .error .attributeError

/-- Lines 966-971: a falsy `components` argument (None or the empty list)
clears; the MISSING sentinel (a plain object, hence truthy, so not caught by
`if not components`) rebuilds from the stored `self.components`; otherwise
the supplied components are built. -/
def componentsPayload (stored : Option (List Nat)) :
    ComponentsArg → ComponentsPayload
  | .noneV => .empty
  | .list [] => .empty
  | .missing => .builtStored stored
  | .list cs => .builtList cs
  | .single c => .builtSingle c

/-- The `payload` dict built on lines 973-982. -/
structure EditPayload where
  content : Option String
  tts : Option Bool
  attachments : List AttachEntry
  embeds : List Nat
  allowed_mentions : AMEntry
  message_reference : MREntry
  components : ComponentsPayload
  flags : Option Nat
deriving DecidableEq

/-- The network request dispatched on lines 984-989:
`self._client.edit_message(channel_id, message_id, payload, files)`. -/
structure EditCall where
  channel_id : Nat
  message_id : Nat
  payload : EditPayload
  files : FilesArg
deriving DecidableEq

/-- Message.edit (message.py lines 871-993), in source order: the
`self._client` guard (LibraryException code 13), the hidden-message guard
(`self.flags == 64`, LibraryException code 12), then `_flags`, `_content`,
`_tts`, `_attachments`, `_files` (extended with `_attachments`), `_embeds`,
`_allowed_mentions`, `_message_reference`, `_components`, the payload dict,
and finally the `edit_message` transport call, returned on success. -/
def Message.edit (m : Message) (args : EditArgs) : Except EditErr EditCall :=
  if m.hasClient = false then .error (.lib ⟨13, none⟩)
  else if m.flags = some 64 then
    .error (.lib ⟨12, some "You cannot edit a hidden message!"⟩)
  else do
    let _flags ← suppressFlags m.flags args.suppress_embeds
    let _content : Option String :=
      match args.content with
      | .missing => m.content
      | .given c => c
    let _tts : Option Bool :=
      match args.tts with
      | .missing => some false
      | .given t => t
    let _attachments ← attachmentsPayload m.attachments args.attachments
    let fp := filesPayload args.files
    let allAttachments := fp.1 ++ _attachments
    let _embeds := embedsPayload m.embeds args.embeds
    let _allowed_mentions := allowedMentionsPayload args.allowed_mentions
    let _message_reference ← messageReferencePayload args.message_reference
    let _components := componentsPayload m.components args.components
    Except.ok
      { channel_id := m.channel_id, message_id := m.id,
        payload := { content := _content, tts := _tts,
                     attachments := allAttachments, embeds := _embeds,
                     allowed_mentions := _allowed_mentions,
                     message_reference := _message_reference,
                     components := _components, flags := _flags },
        files := fp.2 }

/-- Serialized form of the stored embeds: a None store serializes to the
empty list, a stored list to its members' `_json` forms. -/
def storedEmbedsJson : Option (List Embed) → List Nat
  | none => []
  | some l => l.map Embed.json

end Interactions

/-- Helper: an omitted `embeds` argument yields exactly the serialization of
the stored embeds. -/
theorem interactions_embedsPayload_missing (e : Option (List Interactions.Embed)) :
    Interactions.embedsPayload e .missing = Interactions.storedEmbedsJson e := by
  cases e with
  | none => rfl
  | some l => cases l <;> rfl

/-- C1: the claim says Option construction fails with SchemaError exactly on
malformed declarations and succeeds on well-formed ones.  In the code,
`BaseOption.__init__` raises ValueError on line 271
(`self.options, self.choices = []` unpacks an empty list into two targets)
for every declaration, well-formed or not, before any validation runs; the
SchemaError paths are unreachable (and the SUBCOMMAND_GROUP empty-options
check is further dead code because `options is not []` is always true). -/
theorem c1_baseoption_init_always_valueerror (d : DisInteract.OptionDecl) :
    DisInteract.BaseOption.init d = .error DisInteract.PyErr.valueError := by
  rw [DisInteract.BaseOption.init.eq_def]
  rfl

/-- C4: the claim says structural equality of the value entities is reflexive
and symmetric.  `BasePermission.__eq__` compares `self._type` with `other.id`,
so for permissions p1 = (id 1, kind 1, allow) and p2 = (id 1, kind 2, allow)
the comparison holds one way and fails the other: symmetry is violated (and
reflexivity fails whenever kind ≠ id). -/
theorem c4_permission_eq_not_symmetric :
    DisInteract.BasePermission.eq ⟨1, 1, true⟩ ⟨1, 2, true⟩ = true ∧
    DisInteract.BasePermission.eq ⟨1, 2, true⟩ ⟨1, 1, true⟩ = false := by
  decide

/-- C9: the claim says PermissionOverride equality holds iff id, kind and
state agree.  The permission (id 7, kind 2, allow) has all three fields equal
to itself, yet the code's `__eq__` evaluates to False on it, because the
middle conjunct compares `self._type` (2) with `other.id` (7). -/
theorem c9_permission_eq_not_reflexive :
    DisInteract.BasePermission.eq ⟨7, 2, true⟩ ⟨7, 2, true⟩ = false := by
  decide

/-- C8: the claim says Command construction lowercases `name`, `base`, `sub`
and `group`.  Construction can never reach the normalization: line 110
(`super().__init__(command["func"])`) raises KeyError when the `"func"` key is
absent and otherwise TypeError, since `object.__init__` rejects the extra
argument; lines 112-114 would in any case raise TypeError at
`isinstance(base, None)`. -/
theorem c8_command_init_never_succeeds (name : String)
    (command : DisInteract.CommandDict) (t : Int) (sub base group : Option String) :
    DisInteract.Command.init name command t sub base group = .error .keyError ∨
    DisInteract.Command.init name command t sub base group = .error .typeError := by
  cases h : command.func with
  | none => exact Or.inl (by simp [DisInteract.Command.init, h])
  | some _ => exact Or.inr (by simp [DisInteract.Command.init, h])

/-- C2: when delete is called with no delay and the channel-scoped delete is
rejected with Forbidden, exactly one fallback call to the interaction-token
delete path is awaited, carrying the stored interaction token and the message
id, nothing is scheduled, and the fallback call's outcome is handed back to
the caller unchanged (its return value is returned, an exception from it
propagates). -/
theorem c2_delete_immediate_fallback (m : DisInteract.Message)
    (env : DisInteract.DeleteEnv)
    (h : env.channelDelete = .error .forbidden) :
    (DisInteract.Message.delete m env none).fallbackCalls = [(m.token, m.id)] ∧
    (DisInteract.Message.delete m env none).scheduled = [] ∧
    (DisInteract.Message.delete m env none).outcome = env.tokenDelete.map some := by
  simp [DisInteract.Message.delete, h]

/-- Witness for C2 at a concrete message and environment. -/
theorem c2_delete_immediate_fallback_witness :
    (DisInteract.Message.delete ⟨10, 20, none⟩ ⟨.error .forbidden, .ok 5⟩ none).fallbackCalls = [(10, 20)] ∧
    (DisInteract.Message.delete ⟨10, 20, none⟩ ⟨.error .forbidden, .ok 5⟩ none).scheduled = [] ∧
    (DisInteract.Message.delete ⟨10, 20, none⟩ ⟨.error .forbidden, .ok 5⟩ none).outcome = .ok (some 5) :=
  c2_delete_immediate_fallback ⟨10, 20, none⟩ ⟨.error .forbidden, .ok 5⟩ rfl

/-- C3 counterexample: `delete(delay=0)` is a delete call with a delay whose
channel attempt fails with Forbidden, yet no background task is scheduled:
`if not delay:` treats the 0 delay as falsy, so the fallback is attempted
immediately instead. -/
theorem c3_delay_zero_schedules_nothing :
    (DisInteract.Message.delete ⟨10, 20, none⟩ ⟨.error .forbidden, .ok 5⟩ (some 0)).scheduled = [] ∧
    (DisInteract.Message.delete ⟨10, 20, none⟩ ⟨.error .forbidden, .ok 5⟩ (some 0)).fallbackCalls = [(10, 20)] :=
  ⟨rfl, rfl⟩

/-- C3 (amended to nonzero delays): when delete is called with a nonzero
delay and the channel-scoped attempt fails with Forbidden, a single
background task is scheduled that sleeps for the delay and then attempts the
interaction-token delete; nothing is awaited synchronously, the caller gets a
plain None back, and a Forbidden failure of the deferred attempt is swallowed
by the `suppress(Forbidden)` block, never escaping to any observer. -/
theorem c3_deferred_delete_swallows_forbidden (m : DisInteract.Message)
    (env : DisInteract.DeleteEnv) (n : Nat) (hn : n ≠ 0)
    (h : env.channelDelete = .error .forbidden) :
    (DisInteract.Message.delete m env (some n)).scheduled = [⟨n, m.token, m.id⟩] ∧
    DisInteract.BgTask.actions ⟨n, m.token, m.id⟩ =
      [.sleep n, .tokenDelete m.token m.id] ∧
    (DisInteract.Message.delete m env (some n)).fallbackCalls = [] ∧
    (DisInteract.Message.delete m env (some n)).outcome = .ok none ∧
    DisInteract.wrapEscapes (.error .forbidden) = none := by
  simp [DisInteract.Message.delete, DisInteract.BgTask.actions,
    DisInteract.wrapEscapes, h, hn]

/-- Witness for the amended C3 at delay 5 with a deferred attempt that is
itself rejected with Forbidden. -/
theorem c3_deferred_delete_swallows_forbidden_witness :
    (DisInteract.Message.delete ⟨10, 20, none⟩ ⟨.error .forbidden, .error .forbidden⟩ (some 5)).scheduled = [⟨5, 10, 20⟩] ∧
    DisInteract.BgTask.actions ⟨5, 10, 20⟩ = [.sleep 5, .tokenDelete 10 20] ∧
    (DisInteract.Message.delete ⟨10, 20, none⟩ ⟨.error .forbidden, .error .forbidden⟩ (some 5)).fallbackCalls = [] ∧
    (DisInteract.Message.delete ⟨10, 20, none⟩ ⟨.error .forbidden, .error .forbidden⟩ (some 5)).outcome = .ok none ∧
    DisInteract.wrapEscapes (.error .forbidden) = none :=
  c3_deferred_delete_swallows_forbidden ⟨10, 20, none⟩
    ⟨.error .forbidden, .error .forbidden⟩ 5 (by decide) rfl

/-- C6: the claim says a caller-supplied allowed_mentions is used verbatim
and an omitted one is merged with the client default.  The code does neither:
with a supplied value and a configured client default, the built payload's
allowed_mentions entry is the empty dict rather than the supplied value, and
with the value omitted the call raises AttributeError (both branches invoke a
method on None). -/
theorem c6_allowed_mentions_inverted :
    DisInteract.Message.slashEdit ⟨10, 20, some ⟨7⟩⟩
      ⟨some none, some none, some none, some (some []), some none, some none, some ⟨3⟩, none⟩ =
      .ok { response := some { components := [], embeds := [],
                               allowed_mentions := .emptyDict },
            deleteDelay := none, closedFiles := [] } ∧
    DisInteract.AMEntry.emptyDict ≠ DisInteract.AM.toDict ⟨3⟩ ∧
    DisInteract.Message.slashEdit ⟨10, 20, some ⟨7⟩⟩
      ⟨some none, some none, some none, some (some []), some none, some none, none, none⟩ =
      .error .attributeError :=
  ⟨rfl, by decide, rfl⟩

/-- C7 counterexample: a call supplying only `file` and `files` (both
non-None) hits the KeyError on `fields["content"]`, which the bare
`except KeyError: pass` swallows — no FormatError is raised and the method
silently does nothing. -/
theorem c7_missing_fields_raise_nothing :
    DisInteract.Message.slashEdit ⟨10, 20, none⟩
      ⟨none, none, none, none, some (some 1), some (some [2]), none, none⟩ =
      .ok { response := none, deleteDelay := none, closedFiles := [] } :=
  rfl

/-- C7 (amended to calls that enter the edit body): when all six of content,
components, embed, embeds, file and files are supplied, embeds is a list, and
both file and files are non-None, the call fails with a FormatError (the
10-embed limit or the file/files conflict, whichever is checked first) and
performs no network call: nothing is dispatched and no delete is awaited. -/
theorem c7_file_and_files_format_error (m : DisInteract.Message)
    (c : Option String) (comp : Option (List Nat)) (e : Option DisInteract.Embed)
    (l : List DisInteract.Embed) (f : Nat) (fs : List Nat)
    (am : Option DisInteract.AM) (da : Option Nat) :
    DisInteract.Message.slashEdit m
      ⟨some c, some comp, some e, some (some l), some (some f), some (some fs), am, da⟩ =
      .error (.interaction .incorrectFormat) := by
  by_cases hl : l.length > 10 <;>
    simp [DisInteract.Message.slashEdit, hl]

/-- C5: on a message that edit actually processes (a client is attached, the
message is not hidden, and a stored attachments list exists for the omitted
`attachments` argument to fall back on), calling edit without an explicit
`embeds` argument builds a payload whose embeds are exactly the serialization
of the message's current stored embeds, while calling it with `embeds=[]`
builds a payload whose embeds list is empty. -/
theorem c5_edit_embeds_preserved_or_cleared (m : Interactions.Message)
    (hc : m.hasClient = true) (hf : ¬ m.flags = some 64)
    (ha : m.attachments.isSome = true) :
    (∃ call, Interactions.Message.edit m Interactions.EditArgs.allMissing = .ok call ∧
      call.payload.embeds = Interactions.storedEmbedsJson m.embeds) ∧
    (∃ call, Interactions.Message.edit m (Interactions.EditArgs.withEmbeds (.list [])) = .ok call ∧
      call.payload.embeds = []) := by
  cases m with
  | mk hcl mid mch mco matt memb mcomp mfl =>
    subst hc
    cases matt with
    | none => simp at ha
    | some atts =>
      have h1 : Interactions.Message.edit
          ⟨true, mid, mch, mco, some atts, memb, mcomp, mfl⟩
          Interactions.EditArgs.allMissing =
          .ok { channel_id := mch, message_id := mid,
                payload := { content := mco, tts := some false,
                             attachments := atts.map .attach,
                             embeds := Interactions.embedsPayload memb .missing,
                             allowed_mentions := .emptyDict,
                             message_reference := .emptyDict,
                             components := .builtStored mcomp, flags := mfl },
                files := .missing } := by
        unfold Interactions.Message.edit
        rw [if_neg (fun h => Bool.noConfusion h), if_neg hf]
        rfl
      have h2 : Interactions.Message.edit
          ⟨true, mid, mch, mco, some atts, memb, mcomp, mfl⟩
          (Interactions.EditArgs.withEmbeds (.list [])) =
          .ok { channel_id := mch, message_id := mid,
                payload := { content := mco, tts := some false,
                             attachments := atts.map .attach,
                             embeds := [],
                             allowed_mentions := .emptyDict,
                             message_reference := .emptyDict,
                             components := .builtStored mcomp, flags := mfl },
                files := .missing } := by
        unfold Interactions.Message.edit
        rw [if_neg (fun h => Bool.noConfusion h), if_neg hf]
        rfl
      exact ⟨⟨_, h1, interactions_embedsPayload_missing memb⟩, ⟨_, h2, rfl⟩⟩

/-- Witness for C5 at a concrete message holding one stored embed. -/
theorem c5_edit_embeds_preserved_or_cleared_witness :
    (∃ call, Interactions.Message.edit ⟨true, 1, 2, none, some [], some [⟨5⟩], none, none⟩
        Interactions.EditArgs.allMissing = .ok call ∧
      call.payload.embeds = Interactions.storedEmbedsJson (some [⟨5⟩])) ∧
    (∃ call, Interactions.Message.edit ⟨true, 1, 2, none, some [], some [⟨5⟩], none, none⟩
        (Interactions.EditArgs.withEmbeds (.list [])) = .ok call ∧
      call.payload.embeds = []) :=
  c5_edit_embeds_preserved_or_cleared
    ⟨true, 1, 2, none, some [], some [⟨5⟩], none, none⟩ rfl (by decide) rfl

/-- C10 counterexample: a message with flags 64 but no attached client makes
edit raise LibraryException code 13 (the `self._client` guard fires first),
not the code-12 hidden-message error the claim promises for every message
with flags 64. -/
theorem c10_hidden_without_client_code_13 :
    Interactions.Message.edit ⟨false, 1, 2, none, some [], none, some [], some 64⟩
      Interactions.EditArgs.allMissing = .error (.lib ⟨13, none⟩) ∧
    Interactions.EditErr.lib ⟨13, none⟩ ≠
      .lib ⟨12, some "You cannot edit a hidden message!"⟩ :=
  ⟨rfl, by decide⟩

/-- C10 (amended to messages with an attached client): when a client is
attached and the message's flags equal 64, edit raises LibraryException code
12 ("You cannot edit a hidden message!") — the result is the error itself, so
no payload is built and no network call is performed. -/
theorem c10_hidden_message_edit (m : Interactions.Message)
    (args : Interactions.EditArgs)
    (hc : m.hasClient = true) (hf : m.flags = some 64) :
    Interactions.Message.edit m args =
      .error (.lib ⟨12, some "You cannot edit a hidden message!"⟩) := by
  simp [Interactions.Message.edit, hc, hf]

/-- Witness for the amended C10 at a concrete hidden message. -/
theorem c10_hidden_message_edit_witness :
    Interactions.Message.edit ⟨true, 1, 2, none, some [], none, some [], some 64⟩
      Interactions.EditArgs.allMissing =
      .error (.lib ⟨12, some "You cannot edit a hidden message!"⟩) :=
  c10_hidden_message_edit ⟨true, 1, 2, none, some [], none, some [], some 64⟩
    Interactions.EditArgs.allMissing rfl rfl
